import Mathlib

/-!
Shallow embedding of the RAG query pipeline of `backend/main.py`
(rag-app repository).

External collaborators (the tiktoken tokenizer backend, the OpenAI
embedding and chat-completion services, the Pinecone vector index and
the Cohere rerank service) are modelled as function parameters whose
results are `Except`-style outcomes; the pipeline functions themselves
are translated clause by clause from the Python source.  Token counts
are `Nat`; monetary amounts and wall-clock durations are exact
rationals (`ℚ`); Python dicts with a fixed key set become structures,
dicts with a varying key set (the `timing` and `costs` maps) become
association lists so that the exact key set on each code path is
visible.
-/

/-- Metadata dict attached to a chunk.  `mmr_diversify` reads only the
`document_id` key (with default value `"unknown"` when absent, as in
`doc["metadata"].get("document_id", "unknown")`); all remaining keys are
carried opaquely in `rest`. -/
structure Metadata where
  document_id : Option String
  rest : List (String × String)
deriving DecidableEq, Repr

/-- A retrieved chunk as the pipeline passes it around: the Python dict
`{"text": ..., "metadata": ..., "score": ...}` built in
`query_documents`, plus the optional `rerank_score` key that
`rerank_documents` may add. -/
structure Doc where
  text : String
  metadata : Metadata
  score : ℚ
  rerank_score : Option ℚ
deriving DecidableEq, Repr

/-- The lookup `metadata.get("document_id", "unknown")` from `mmr_diversify`. -/
def documentId (d : Doc) : String :=
  d.metadata.document_id.getD "unknown"

/-- The constant `MAX_CONTEXT_TOKENS = 6000` — safety guard for the prompt. -/
def MAX_CONTEXT_TOKENS : Nat := 6000

/-- The `PRICING` constants dict (USD per 1K tokens). -/
structure Pricing where
  embedding : ℚ
  gpt4_input : ℚ
  gpt4_output : ℚ
  rerank_per_search : ℚ
deriving DecidableEq, Repr

def PRICING : Pricing :=
  { embedding := 0.00002
    gpt4_input := 0.01
    gpt4_output := 0.03
    rerank_per_search := 0.002 }

/-- A tokenizer backend: `some n` models a successful
`len(encoding.encode(text))`, `none` models any exception raised by
tiktoken. -/
def Tokenizer : Type := String → Option Nat

/-- Auxiliary for `pyStrip`: drop leading whitespace characters. -/
def dropWhileWS : List Char → List Char
  | [] => []
  | c :: cs => if c.isWhitespace then dropWhileWS cs else c :: cs

/-- Python `str.strip()`: remove leading and trailing whitespace.
Implemented by structural recursion on the character list (rather than
with `String.trim`) so that it evaluates on concrete inputs. -/
def pyStrip (s : String) : String :=
  ⟨(dropWhileWS ((dropWhileWS s.data).reverse)).reverse⟩

/-- Source `get_token_count`: count tokens with tiktoken, falling back to the
rough approximation `len(text) // 4` when the backend raises. -/
def get_token_count (tok : Tokenizer) (text : String) : Nat :=
  match tok text with
  | some n => n
  | none => text.length / 4

/-- The loop of `mmr_diversify`: `seen` is the counts dict keyed by
document id, updated by prepending (so `List.lookup` finds the newest
count first). -/
def mmr_diversify_aux (max_per_doc : Nat) (seen : List (String × Nat)) :
    List Doc → List Doc
  | [] => []
  | doc :: rest =>
    if (seen.lookup (documentId doc)).getD 0 < max_per_doc then
      doc :: mmr_diversify_aux max_per_doc
        ((documentId doc, (seen.lookup (documentId doc)).getD 0 + 1) :: seen) rest
    else
      mmr_diversify_aux max_per_doc seen rest

/-- Source `mmr_diversify(docs, max_per_doc=2)`: lightweight diversity — limit
chunks per `document_id`. -/
def mmr_diversify (docs : List Doc) (max_per_doc : Nat := 2) : List Doc :=
  mmr_diversify_aux max_per_doc [] docs

/-- One entry of the rerank service's response: `{index, relevance_score}`. -/
structure RerankResult where
  index : Nat
  relevance_score : ℚ
deriving DecidableEq, Repr

/-- The Cohere rerank service, as a function of the arguments the code
passes it (`query`, the candidate texts, and the effective `top_n`);
`.error ()` models any exception raised by the call. -/
def RerankService : Type :=
  String → List String → Nat → Except Unit (List RerankResult)

/-- The result-processing loop of `rerank_documents`: look up
`docs[r.index]`, attach `rerank_score`, and append.  `none` models the
`IndexError` a Python out-of-range index would raise inside the `try`
block (the in-place dict mutation on that abandoned path is not
modelled; no returned value depends on it). -/
def rerankApply (docs : List Doc) : List RerankResult → Option (List Doc)
  | [] => some []
  | r :: rs =>
    match docs[r.index]? with
    | none => none
    | some d =>
      (rerankApply docs rs).map
        (fun out => { d with rerank_score := some r.relevance_score } :: out)

/-- Source `rerank_documents(query, docs, top_n)`: empty input short-circuits to
`[]` before the service call; the service is invoked with
`top_n = min(top_n, len(docs))`; any exception (service error or index
error while reading results) degrades to `docs[:top_n]`. -/
def rerank_documents (query : String) (docs : List Doc) (top_n : Nat)
    (svc : RerankService) : List Doc :=
  if docs.isEmpty then []
  else
    match svc query (docs.map (·.text)) (min top_n docs.length) with
    | .error _ => docs.take top_n
    | .ok results =>
      match rerankApply docs results with
      | some out => out
      | none => docs.take top_n

/-- One entry of the `sources` list built in `generate_answer`. -/
structure Source where
  id : Nat
  preview : String
  metadata : Metadata
  score : ℚ
deriving DecidableEq, Repr

/-- The preview `doc["text"][:300] + "..." if len(doc["text"]) > 300 else doc["text"]`. -/
def mkPreview (text : String) : String :=
  if text.length > 300 then text.take 300 ++ "..." else text

/-- The citation block `f"[{i}] {doc['text']}"`. -/
def blockStr (i : Nat) (d : Doc) : String :=
  "[" ++ toString i ++ "] " ++ d.text

/-- The source record appended for an accepted candidate:
`{"id": i, "preview": ..., "metadata": ..., "score":
doc.get("rerank_score", doc.get("score", 0))}`. -/
def mkSource (i : Nat) (d : Doc) : Source :=
  { id := i
    preview := mkPreview d.text
    metadata := d.metadata
    score := d.rerank_score.getD d.score }

/-- The context-assembly loop of `generate_answer`: iterate the docs with
citation number `i` (starting at 1) and running total `total`; a
candidate whose block would push the total past `MAX_CONTEXT_TOKENS`
stops the whole loop (`break`), returning the blocks and sources
accepted so far. -/
def assembleContext (tok : Tokenizer) (i total : Nat) :
    List Doc → List String × List Source
  | [] => ([], [])
  | doc :: rest =>
    if total + get_token_count tok (blockStr i doc) > MAX_CONTEXT_TOKENS then
      ([], [])
    else
      (blockStr i doc ::
        (assembleContext tok (i + 1)
          (total + get_token_count tok (blockStr i doc)) rest).1,
       mkSource i doc ::
        (assembleContext tok (i + 1)
          (total + get_token_count tok (blockStr i doc)) rest).2)

/-- Failure modes of an OpenAI call, matching the `except` clauses of
`get_embedding` and `generate_answer`: `rateLimited` is
`openai.RateLimitError`, `apiError` is any other `openai.APIError`, and
`otherException` is a non-API exception reaching the broad
`except Exception` clause. -/
inductive SvcError where
  | rateLimited : SvcError
  | apiError : String → SvcError
  | otherException : String → SvcError
deriving DecidableEq, Repr

/-- A raised `fastapi.HTTPException(status_code, detail)`. -/
structure HTTPError where
  status : Nat
  detail : String
deriving DecidableEq, Repr

/-- The embedding service (`openai_client.embeddings.create` wrapped up
to the returned vector), as a function of the input text. -/
def EmbedService : Type := String → Except SvcError (List ℚ)

/-- Source `get_embedding(text)`: return the service's vector, mapping a rate
limit to HTTP 429, any other API error to HTTP 503, and any other
exception to HTTP 500. -/
def get_embedding (svc : EmbedService) (text : String) :
    Except HTTPError (List ℚ) :=
  match svc text with
  | .ok v => .ok v
  | .error .rateLimited =>
      .error ⟨429, "OpenAI rate limit exceeded. Please try again later."⟩
  | .error (.apiError e) => .error ⟨503, "OpenAI API error: " ++ e⟩
  | .error (.otherException e) =>
      .error ⟨500, "Embedding generation failed: " ++ e⟩

/-- The `usage` object of a chat completion response. -/
structure Usage where
  prompt_tokens : Nat
  completion_tokens : Nat
  total_tokens : Nat
deriving DecidableEq, Repr

/-- A chat completion response: the answer text and its token usage. -/
structure ChatResp where
  content : String
  usage : Usage
deriving DecidableEq, Repr

/-- The chat completion service, as a function of the system prompt and
the user prompt the code sends it. -/
def ChatService : Type := String → String → Except SvcError ChatResp

/-- The `"tokens"` sub-dict of `generate_answer`'s result. -/
structure TokensOut where
  input : Nat
  output : Nat
  total : Nat
deriving DecidableEq, Repr

/-- The successful result dict of `generate_answer`. -/
structure GenResult where
  answer : String
  tokens : TokensOut
  sources : List Source
deriving DecidableEq, Repr

/-- The fixed system prompt of `generate_answer`. -/
def SYSTEM_PROMPT : String :=
  "You are a retrieval-augmented assistant that provides accurate, well-cited answers.\n\nRules:\n- Use ONLY the provided context to answer questions\n- EVERY claim must be followed by inline citations like [1], [2], or [1,2]\n- Multiple related claims can share citations if from the same source\n- Do NOT invent citation numbers that don\x27t exist\n- If the context doesn\x27t contain enough information, explicitly state what\x27s missing\n- Be concise but thorough\n- Structure your answer clearly with proper paragraphs\n"

/-- The user prompt template of `generate_answer`. -/
def userPrompt (context query : String) : String :=
  "Context:\n" ++ context ++ "\n\nQuestion:\n" ++ query ++
    "\n\nProvide a well-structured answer with inline citations [1], [2], etc. for every claim you make.\n"

/-- Source `generate_answer(query, docs)`: assemble the token-budgeted context
and sources, call the chat service on the stripped prompts, and map
service failures exactly as `get_embedding` does (429 / 503 / 500). -/
def generate_answer (tok : Tokenizer) (chat : ChatService) (query : String)
    (docs : List Doc) : Except HTTPError GenResult :=
  let p := assembleContext tok 1 0 docs
  let context := String.intercalate "\n\n" p.1
  match chat (pyStrip SYSTEM_PROMPT) (pyStrip (userPrompt context query)) with
  | .ok resp =>
      .ok { answer := resp.content
            tokens := { input := resp.usage.prompt_tokens
                        output := resp.usage.completion_tokens
                        total := resp.usage.total_tokens }
            sources := p.2 }
  | .error .rateLimited =>
      .error ⟨429, "OpenAI rate limit exceeded. Please try again later."⟩
  | .error (.apiError e) => .error ⟨503, "OpenAI API error: " ++ e⟩
  | .error (.otherException e) =>
      .error ⟨500, "Answer generation failed: " ++ e⟩

/-- Python `round(x, 3)` on an exact rational. -/
def round3 (q : ℚ) : ℚ := (round (q * 1000) : ℤ) / 1000

/-- Python `round(x, 6)` on an exact rational. -/
def round6 (q : ℚ) : ℚ := (round (q * 1000000) : ℤ) / 1000000

/-- One Pinecone match: its score and its metadata dict, with the
optional `"text"` payload split out of the remaining metadata the way
`query_documents` splits it. -/
structure VecMatch where
  score : ℚ
  metadata_text : Option String
  metadata : Metadata
deriving DecidableEq, Repr

/-- The vector index query (`index.query(vector, top_k, ...)`), as a
function of the query vector and `top_k`; `.error` models a Pinecone
exception (carrying its message). -/
def VectorIndex : Type := List ℚ → Nat → Except String (List VecMatch)

/-- The document-extraction loop of `query_documents`: keep only matches
whose metadata carries a `"text"` field, in order. -/
def extractDocs (ms : List VecMatch) : List Doc :=
  ms.filterMap fun m =>
    m.metadata_text.map fun t =>
      { text := t, metadata := m.metadata, score := m.score,
        rerank_score := none }

/-- The pydantic model `QueryRequest`, with its defaults. -/
structure QueryRequest where
  query : String
  top_k : Nat := 15
  rerank_top_n : Nat := 5
deriving DecidableEq, Repr

/-- The `token_estimate` dict of a `QueryResponse`; `costs` is kept as an
association list because its key set differs between the no-match path
(`llm_usd`) and the full path (`llm_input_usd`, `llm_output_usd`). -/
structure TokenEstimate where
  embedding_tokens : Nat
  llm_input_tokens : Nat
  llm_output_tokens : Nat
  total_tokens : Nat
  costs : List (String × ℚ)
deriving DecidableEq, Repr

/-- The model `QueryResponse`; `timing` is an association list for the same
reason: the no-match path returns it without a `"total"` key. -/
structure QueryResponse where
  answer : String
  sources : List Source
  timing : List (String × ℚ)
  token_estimate : TokenEstimate
deriving DecidableEq, Repr

/-- The canned no-match answer of `query_documents`. -/
def CANNED_ANSWER : String :=
  "I couldn\x27t find any relevant information in the knowledge base to answer your question. Please try rephrasing or upload relevant documents first."

/-- The external world one `/query` request observes: the tokenizer and
service outcomes, plus the raw wall-clock duration each instrumented
stage happens to take. -/
structure World where
  tok : Tokenizer
  embed : EmbedService
  vecIndex : VectorIndex
  rerankSvc : RerankService
  chat : ChatService
  tEmbed : ℚ
  tRetrieval : ℚ
  tRerank : ℚ
  tGeneration : ℚ

/-- Source `query_documents(req)`: the `/query` endpoint pipeline — validation,
embedding, retrieval, the no-match short-circuit, diversification,
reranking, generation, and timing / token / cost accounting.  Stage
timings are recorded as `round(elapsed, 3)`; `timing["total"]` is set
(only on the full path) to `round(sum(timing.values()), 3)`. -/
def query_documents (req : QueryRequest) (w : World) :
    Except HTTPError QueryResponse :=
  if pyStrip req.query = "" then .error ⟨400, "Query cannot be empty"⟩
  else
    match get_embedding w.embed req.query with
    | .error e => .error e
    | .ok query_vec =>
      let query_tokens := get_token_count w.tok req.query
      let timing1 : List (String × ℚ) := [("embedding", round3 w.tEmbed)]
      match w.vecIndex query_vec req.top_k with
      | .error e => .error ⟨500, "Vector search failed: " ++ e⟩
      | .ok ms =>
        let timing2 := timing1 ++ [("retrieval", round3 w.tRetrieval)]
        let docs := extractDocs ms
        if docs.isEmpty then
          let embedding_usd := round6 ((query_tokens : ℚ) / 1000 * PRICING.embedding)
          .ok { answer := CANNED_ANSWER
                sources := []
                timing := timing2
                token_estimate :=
                  { embedding_tokens := query_tokens
                    llm_input_tokens := 0
                    llm_output_tokens := 0
                    total_tokens := query_tokens
                    costs := [("embedding_usd", embedding_usd),
                              ("llm_usd", 0),
                              ("rerank_usd", 0),
                              ("total_usd", embedding_usd)] } }
        else
          let docs1 := mmr_diversify docs 2
          let docs2 := rerank_documents req.query docs1 req.rerank_top_n w.rerankSvc
          let timing3 := timing2 ++ [("reranking", round3 w.tRerank)]
          match generate_answer w.tok w.chat req.query docs2 with
          | .error e => .error e
          | .ok result =>
            let timing4 := timing3 ++ [("generation", round3 w.tGeneration)]
            let timing5 := timing4 ++
              [("total", round3 ((timing4.map Prod.snd).sum))]
            let embedding_cost := (query_tokens : ℚ) / 1000 * PRICING.embedding
            let llm_input_cost := (result.tokens.input : ℚ) / 1000 * PRICING.gpt4_input
            let llm_output_cost := (result.tokens.output : ℚ) / 1000 * PRICING.gpt4_output
            let rerank_cost := PRICING.rerank_per_search
            let total_cost := embedding_cost + llm_input_cost + llm_output_cost + rerank_cost
            .ok { answer := result.answer
                  sources := result.sources
                  timing := timing5
                  token_estimate :=
                    { embedding_tokens := query_tokens
                      llm_input_tokens := result.tokens.input
                      llm_output_tokens := result.tokens.output
                      total_tokens := query_tokens + result.tokens.total
                      costs := [("embedding_usd", round6 embedding_cost),
                                ("llm_input_usd", round6 llm_input_cost),
                                ("llm_output_usd", round6 llm_output_cost),
                                ("rerank_usd", round6 rerank_cost),
                                ("total_usd", round6 total_cost)] } }

/-! ## Helper lemmas -/

theorem mmr_diversify_aux_sublist (m : Nat) (docs : List Doc) :
    ∀ seen, (mmr_diversify_aux m seen docs).Sublist docs := by
  induction docs with
  | nil => intro seen; simp [mmr_diversify_aux]
  | cons d rest ih =>
    intro seen
    rw [mmr_diversify_aux]
    split
    · exact List.Sublist.cons₂ d (ih _)
    · exact List.Sublist.cons d (ih _)

theorem mmr_diversify_aux_countP (m : Nat) (did : String) (docs : List Doc) :
    ∀ seen : List (String × Nat),
      (mmr_diversify_aux m seen docs).countP (fun x => documentId x == did)
        ≤ m - (seen.lookup did).getD 0 := by
  induction docs with
  | nil => intro seen; simp [mmr_diversify_aux]
  | cons d rest ih =>
    intro seen
    rw [mmr_diversify_aux]
    by_cases hd : documentId d = did
    · subst hd
      split
      · rename_i hlt
        have hlook :
            ((((documentId d), (seen.lookup (documentId d)).getD 0 + 1) ::
              seen).lookup (documentId d)).getD 0
              = (seen.lookup (documentId d)).getD 0 + 1 := by
          simp [List.lookup]
        have hrec := ih ((documentId d, (seen.lookup (documentId d)).getD 0 + 1) :: seen)
        rw [hlook] at hrec
        rw [List.countP_cons]
        simp only [beq_self_eq_true, if_pos]
        omega
      · rename_i hge
        have hrec := ih seen
        omega
    · have hpd : (documentId d == did) = false := by
        simpa using hd
      split
      · rename_i hlt
        have hlook :
            ((((documentId d), (seen.lookup (documentId d)).getD 0 + 1) ::
              seen).lookup did).getD 0 = (seen.lookup did).getD 0 := by
          have : (did == documentId d) = false := by
            simp [hd]
            intro h
            exact hd h.symm
          simp [List.lookup, this]
        have hrec := ih ((documentId d, (seen.lookup (documentId d)).getD 0 + 1) :: seen)
        rw [hlook] at hrec
        rw [List.countP_cons, hpd]
        simpa using hrec
      · exact ih seen

theorem assembleContext_budget (tok : Tokenizer) (docs : List Doc) :
    ∀ i total, total ≤ MAX_CONTEXT_TOKENS →
      total + (((assembleContext tok i total docs).1).map (get_token_count tok)).sum
        ≤ MAX_CONTEXT_TOKENS := by
  induction docs with
  | nil => intro i total h; simpa [assembleContext]
  | cons d rest ih =>
    intro i total h
    rw [assembleContext]
    split
    · simpa
    · rename_i hle
      have hfit : total + get_token_count tok (blockStr i d) ≤ MAX_CONTEXT_TOKENS := by
        omega
      have hrec := ih (i + 1) (total + get_token_count tok (blockStr i d)) hfit
      simp only [List.map_cons, List.sum_cons]
      omega

/-! ## Claim theorems: tokenizer, diversity filter, budget bound,
rerank degradation, upstream error mapping -/

/-- C10: token counting is total — `get_token_count` never raises: when
the tokenizer backend fails it returns the approximation
`len(text) // 4`, otherwise the backend's exact count. -/
theorem get_token_count_total (tok : Tokenizer) (text : String) :
    (tok text = none → get_token_count tok text = text.length / 4) ∧
    ∀ n, tok text = some n → get_token_count tok text = n := by
  constructor
  · intro h; simp [get_token_count, h]
  · intro n h; simp [get_token_count, h]

theorem get_token_count_total_witness :
    get_token_count (fun _ => none) "abcdefgh" = "abcdefgh".length / 4 ∧
    get_token_count (fun _ => some 7) "abcdefgh" = 7 :=
  ⟨(get_token_count_total (fun _ => none) "abcdefgh").1 rfl,
   (get_token_count_total (fun _ => some 7) "abcdefgh").2 7 rfl⟩

/-- C3: for every candidate list and cap, `mmr_diversify` returns a
sublist (so relative input order is preserved and no candidate is
invented), of length at most the input length, with at most
`max_per_document` candidates per document id, and maps empty input to
empty output; it is a total function, so it never fails. -/
theorem mmr_diversify_spec (docs : List Doc) (m : Nat) :
    (mmr_diversify docs m).Sublist docs ∧
    (mmr_diversify docs m).length ≤ docs.length ∧
    (∀ did : String,
      (mmr_diversify docs m).countP (fun x => documentId x == did) ≤ m) ∧
    mmr_diversify [] m = [] := by
  refine ⟨mmr_diversify_aux_sublist m docs [], ?_, ?_, rfl⟩
  · exact (mmr_diversify_aux_sublist m docs []).length_le
  · intro did
    have h := mmr_diversify_aux_countP m did docs []
    simpa [mmr_diversify] using h

/-- C1: the Context Budgeter inside `generate_answer` never accepts a
set of blocks whose summed token cost (each block being
`"[i] " + text`) exceeds `MAX_CONTEXT_TOKENS`. -/
theorem contextBudgeter_never_exceeds (tok : Tokenizer) (docs : List Doc) :
    (((assembleContext tok 1 0 docs).1).map (get_token_count tok)).sum
      ≤ MAX_CONTEXT_TOKENS := by
  have h := assembleContext_budget tok docs 1 0 (by simp [MAX_CONTEXT_TOKENS])
  simpa using h

/-- C4: `rerank_documents` degrades on any service error to
`docs[:top_n]` unchanged in order, and short-circuits the empty
candidate list to `[]` for every service (in particular without
depending on the service at all). -/
theorem rerank_documents_failure_policy (query : String) (docs : List Doc)
    (top_n : Nat) (svc : RerankService) :
    (docs ≠ [] →
      svc query (docs.map (·.text)) (min top_n docs.length) = .error () →
      rerank_documents query docs top_n svc = docs.take top_n) ∧
    rerank_documents query [] top_n svc = [] := by
  constructor
  · intro hne hsvc
    rw [rerank_documents, if_neg (by simpa using hne), hsvc]
  · rfl

theorem rerank_documents_failure_policy_witness :
    rerank_documents "q"
        [{ text := "alpha", metadata := { document_id := some "d1", rest := [] },
           score := 1, rerank_score := none }] 5
        (fun _ _ _ => .error ()) =
      [{ text := "alpha", metadata := { document_id := some "d1", rest := [] },
         score := 1, rerank_score := none }] := by
  have h := (rerank_documents_failure_policy "q"
      [{ text := "alpha", metadata := { document_id := some "d1", rest := [] },
         score := 1, rerank_score := none }] 5
      (fun _ _ _ => .error ())).1 (by simp) rfl
  simpa using h

/-- C6: a rate-limit failure of the embedding or the answer-generation
service is surfaced as HTTP 429 ("retry later"), and any other failure
of that service (an `openai.APIError`) as HTTP 503 (service
unavailable); the pipeline functions consume a single service outcome,
so no local retry happens. -/
theorem upstream_error_mapping (embedSvc : EmbedService) (chat : ChatService)
    (tok : Tokenizer) (text query : String) (docs : List Doc) (e : String) :
    (embedSvc text = .error .rateLimited →
      get_embedding embedSvc text =
        .error ⟨429, "OpenAI rate limit exceeded. Please try again later."⟩) ∧
    (embedSvc text = .error (.apiError e) →
      get_embedding embedSvc text =
        .error ⟨503, "OpenAI API error: " ++ e⟩) ∧
    ((∀ s u, chat s u = .error .rateLimited) →
      generate_answer tok chat query docs =
        .error ⟨429, "OpenAI rate limit exceeded. Please try again later."⟩) ∧
    ((∀ s u, chat s u = .error (.apiError e)) →
      generate_answer tok chat query docs =
        .error ⟨503, "OpenAI API error: " ++ e⟩) := by
  refine ⟨?_, ?_, ?_, ?_⟩
  · intro h; simp [get_embedding, h]
  · intro h; simp [get_embedding, h]
  · intro h; simp [generate_answer, h]
  · intro h; simp [generate_answer, h]

theorem upstream_error_mapping_witness :
    get_embedding (fun _ => .error .rateLimited) "hi" =
      .error ⟨429, "OpenAI rate limit exceeded. Please try again later."⟩ ∧
    generate_answer (fun _ => none) (fun _ _ => .error (.apiError "boom"))
        "q" [] = .error ⟨503, "OpenAI API error: boom"⟩ :=
  ⟨(upstream_error_mapping (fun _ => .error .rateLimited)
      (fun _ _ => .error (.apiError "x")) (fun _ => none) "hi" "q" [] "x").1 rfl,
   (upstream_error_mapping (fun _ => .error .rateLimited)
      (fun _ _ => .error (.apiError "boom")) (fun _ => none) "hi" "q" []
      "boom").2.2.2 (fun _ _ => rfl)⟩

theorem assembleContext_char (tok : Tokenizer) (docs : List Doc) :
    ∀ i total, ∃ n, n ≤ docs.length ∧
      (assembleContext tok i total docs).1 =
        ((docs.take n).enumFrom i).map (fun p => blockStr p.1 p.2) ∧
      (assembleContext tok i total docs).2 =
        ((docs.take n).enumFrom i).map (fun p => mkSource p.1 p.2) ∧
      ∀ h : n < docs.length,
        total +
          (((assembleContext tok i total docs).1).map (get_token_count tok)).sum +
          get_token_count tok (blockStr (i + n) (docs.get ⟨n, h⟩)) >
          MAX_CONTEXT_TOKENS := by
  induction docs with
  | nil =>
    intro i total
    exact ⟨0, Nat.le_refl 0, by simp [assembleContext], by simp [assembleContext],
      fun h => absurd h (by simp)⟩
  | cons d rest ih =>
    intro i total
    by_cases hstop :
        total + get_token_count tok (blockStr i d) > MAX_CONTEXT_TOKENS
    · have heq : assembleContext tok i total (d :: rest) = ([], []) := by
        rw [assembleContext, if_pos hstop]
      refine ⟨0, Nat.zero_le _, by simp [heq], by simp [heq], ?_⟩
      intro h
      simpa [heq] using hstop
    · have heq : assembleContext tok i total (d :: rest) =
          (blockStr i d ::
            (assembleContext tok (i + 1)
              (total + get_token_count tok (blockStr i d)) rest).1,
           mkSource i d ::
            (assembleContext tok (i + 1)
              (total + get_token_count tok (blockStr i d)) rest).2) := by
        rw [assembleContext, if_neg hstop]
      obtain ⟨n, hn, hb, hs, hnext⟩ :=
        ih (i + 1) (total + get_token_count tok (blockStr i d))
      refine ⟨n + 1, by simpa using Nat.succ_le_succ hn, ?_, ?_, ?_⟩
      · rw [heq]
        simp only [List.take_succ_cons, List.enumFrom_cons, List.map_cons]
        rw [hb]
      · rw [heq]
        simp only [List.take_succ_cons, List.enumFrom_cons, List.map_cons]
        rw [hs]
      · intro h
        have h' : n < rest.length := by
          simpa using Nat.lt_of_succ_lt_succ h
        have hx := hnext h'
        have hidx : i + (n + 1) = i + 1 + n := by omega
        rw [heq]
        simp only [List.map_cons, List.sum_cons, List.get_cons_succ, hidx]
        omega

/-- C2: the Context Budgeter iterates in rank order and stops at the
first candidate whose block would push the running total over the
ceiling: the accepted blocks and sources are exactly the image of a
`prefix` of the input (enumerated from 1), citation ids are contiguous
(`sources[k].id = k + 1`), whenever the loop stopped early the next
block really would overflow, and a single candidate whose block alone
exceeds the ceiling yields no blocks and an empty sources list. -/
theorem contextBudgeter_stops_at_first_overflow (tok : Tokenizer)
    (docs : List Doc) :
    (∃ n, n ≤ docs.length ∧
      (assembleContext tok 1 0 docs).1 =
        ((docs.take n).enumFrom 1).map (fun p => blockStr p.1 p.2) ∧
      (assembleContext tok 1 0 docs).2 =
        ((docs.take n).enumFrom 1).map (fun p => mkSource p.1 p.2) ∧
      ∀ h : n < docs.length,
        (((assembleContext tok 1 0 docs).1).map (get_token_count tok)).sum +
          get_token_count tok (blockStr (n + 1) (docs.get ⟨n, h⟩)) >
          MAX_CONTEXT_TOKENS) ∧
    (∀ k, ∀ hk : k < (assembleContext tok 1 0 docs).2.length,
      ((assembleContext tok 1 0 docs).2.get ⟨k, hk⟩).id = k + 1) ∧
    (∀ d : Doc, get_token_count tok (blockStr 1 d) > MAX_CONTEXT_TOKENS →
      assembleContext tok 1 0 [d] = ([], [])) := by
  obtain ⟨n, hn, hb, hs, hnext⟩ := assembleContext_char tok docs 1 0
  refine ⟨⟨n, hn, hb, hs, ?_⟩, ?_, ?_⟩
  · intro h
    have hx := hnext h
    have hidx : 1 + n = n + 1 := Nat.add_comm 1 n
    rw [hidx] at hx
    simpa using hx
  · intro k hk
    rw [List.get_of_eq hs ⟨k, hk⟩]
    simp only [List.get_eq_getElem, List.getElem_map, List.getElem_enumFrom,
      mkSource]
    omega
  · intro d hd
    rw [assembleContext, if_pos (by simpa using hd)]

theorem contextBudgeter_stops_at_first_overflow_witness :
    assembleContext (fun _ => some 6001) 1 0
      [{ text := "big", metadata := { document_id := none, rest := [] },
         score := 0, rerank_score := none }] = ([], []) :=
  (contextBudgeter_stops_at_first_overflow (fun _ => some 6001) []).2.2
    { text := "big", metadata := { document_id := none, rest := [] },
      score := 0, rerank_score := none } (by decide)

theorem assembleContext_sources_le (tok : Tokenizer) (docs : List Doc) :
    ∀ i total, (assembleContext tok i total docs).2.length ≤ docs.length := by
  induction docs with
  | nil => intro i total; simp [assembleContext]
  | cons d rest ih =>
    intro i total
    rw [assembleContext]
    split
    · simp
    · simpa using ih (i + 1) (total + get_token_count tok (blockStr i d))

theorem rerankApply_length (docs : List Doc) :
    ∀ rs out, rerankApply docs rs = some out → out.length = rs.length := by
  intro rs
  induction rs with
  | nil =>
    intro out h
    rw [rerankApply] at h
    simp at h
    simp [← h]
  | cons r rs ih =>
    intro out h
    rw [rerankApply] at h
    cases hidx : docs[r.index]? with
    | none => rw [hidx] at h; simp at h
    | some d =>
      rw [hidx] at h
      cases hrec : rerankApply docs rs with
      | none => rw [hrec] at h; simp at h
      | some out' =>
        rw [hrec] at h
        simp at h
        rw [← h]
        simp [ih out' hrec]

theorem rerank_documents_length_le (query : String) (docs : List Doc)
    (top_n : Nat) (svc : RerankService)
    (hconf : ∀ q ts n rs, svc q ts n = .ok rs → rs.length ≤ n) :
    (rerank_documents query docs top_n svc).length ≤ min top_n docs.length := by
  rw [rerank_documents]
  split
  · simp
  · cases hsvc : svc query (docs.map (·.text)) (min top_n docs.length) with
    | error e => simp
    | ok rs =>
      have hlen := hconf _ _ _ _ hsvc
      cases happ : rerankApply docs rs with
      | none => simp [happ]
      | some out =>
        simpa [happ, rerankApply_length docs rs out happ] using hlen

theorem generate_answer_ok_char (tok : Tokenizer) (chat : ChatService)
    (query : String) (docs : List Doc) (r : GenResult)
    (h : generate_answer tok chat query docs = .ok r) :
    r.sources = (assembleContext tok 1 0 docs).2 ∧
    ∃ resp, chat (pyStrip SYSTEM_PROMPT)
        (pyStrip (userPrompt
          (String.intercalate "\n\n" (assembleContext tok 1 0 docs).1)
          query)) = .ok resp ∧
      r.answer = resp.content ∧
      r.tokens.input = resp.usage.prompt_tokens ∧
      r.tokens.output = resp.usage.completion_tokens ∧
      r.tokens.total = resp.usage.total_tokens := by
  simp only [generate_answer] at h
  cases hc : chat (pyStrip SYSTEM_PROMPT)
      (pyStrip (userPrompt
        (String.intercalate "\n\n" (assembleContext tok 1 0 docs).1) query)) with
  | ok resp =>
    rw [hc] at h
    simp only [Except.ok.injEq] at h
    subst h
    exact ⟨rfl, resp, rfl, rfl, rfl, rfl, rfl⟩
  | error e =>
    rw [hc] at h
    cases e <;> simp at h

theorem round3_eq_self_of_thousandth (q : ℚ) (z : ℤ) (hz : q = z / 1000) :
    round3 q = q := by
  subst hz
  unfold round3
  rw [div_mul_cancel₀ _ (by norm_num : (1000 : ℚ) ≠ 0), round_intCast]

/-- The response `query_documents` returns on the no-match
short-circuit (lines 438–455 of the source). -/
def noMatchResponse (req : QueryRequest) (w : World) : QueryResponse :=
  { answer := CANNED_ANSWER
    sources := []
    timing := [("embedding", round3 w.tEmbed), ("retrieval", round3 w.tRetrieval)]
    token_estimate :=
      { embedding_tokens := get_token_count w.tok req.query
        llm_input_tokens := 0
        llm_output_tokens := 0
        total_tokens := get_token_count w.tok req.query
        costs := [("embedding_usd",
                     round6 ((get_token_count w.tok req.query : ℚ) / 1000 *
                       PRICING.embedding)),
                   ("llm_usd", 0), ("rerank_usd", 0),
                   ("total_usd",
                     round6 ((get_token_count w.tok req.query : ℚ) / 1000 *
                       PRICING.embedding))] } }

theorem query_documents_no_match (req : QueryRequest) (w : World)
    (hq : ¬ pyStrip req.query = "") (v : List ℚ) (hv : w.embed req.query = .ok v)
    (ms : List VecMatch) (hm : w.vecIndex v req.top_k = .ok ms)
    (hempty : extractDocs ms = []) :
    query_documents req w = .ok (noMatchResponse req w) := by
  simp only [query_documents, get_embedding, hv, hm, hempty, if_neg hq,
    noMatchResponse, List.isEmpty_nil, if_pos, List.singleton_append]

/-- The response `query_documents` returns on the full (answered) path,
given the `GenResult` that `generate_answer` produced. -/
def fullPathResponse (req : QueryRequest) (w : World) (result : GenResult) :
    QueryResponse :=
  { answer := result.answer
    sources := result.sources
    timing :=
      [("embedding", round3 w.tEmbed), ("retrieval", round3 w.tRetrieval),
       ("reranking", round3 w.tRerank), ("generation", round3 w.tGeneration),
       ("total",
         round3 (([("embedding", round3 w.tEmbed),
                   ("retrieval", round3 w.tRetrieval),
                   ("reranking", round3 w.tRerank),
                   ("generation", round3 w.tGeneration)].map Prod.snd).sum))]
    token_estimate :=
      { embedding_tokens := get_token_count w.tok req.query
        llm_input_tokens := result.tokens.input
        llm_output_tokens := result.tokens.output
        total_tokens := get_token_count w.tok req.query + result.tokens.total
        costs :=
          [("embedding_usd",
             round6 ((get_token_count w.tok req.query : ℚ) / 1000 *
               PRICING.embedding)),
           ("llm_input_usd",
             round6 ((result.tokens.input : ℚ) / 1000 * PRICING.gpt4_input)),
           ("llm_output_usd",
             round6 ((result.tokens.output : ℚ) / 1000 * PRICING.gpt4_output)),
           ("rerank_usd", round6 PRICING.rerank_per_search),
           ("total_usd",
             round6 ((get_token_count w.tok req.query : ℚ) / 1000 *
                 PRICING.embedding +
               (result.tokens.input : ℚ) / 1000 * PRICING.gpt4_input +
               (result.tokens.output : ℚ) / 1000 * PRICING.gpt4_output +
               PRICING.rerank_per_search))] } }

theorem query_documents_full_path (req : QueryRequest) (w : World)
    (hq : ¬ pyStrip req.query = "") (v : List ℚ) (hv : w.embed req.query = .ok v)
    (ms : List VecMatch) (hm : w.vecIndex v req.top_k = .ok ms)
    (hne : ¬ extractDocs ms = []) (result : GenResult)
    (hgen : generate_answer w.tok w.chat req.query
        (rerank_documents req.query (mmr_diversify (extractDocs ms) 2)
          req.rerank_top_n w.rerankSvc) = .ok result) :
    query_documents req w = .ok (fullPathResponse req w result) := by
  simp only [query_documents, get_embedding, hv, hm, hgen, if_neg hq,
    if_neg (by simpa using hne : ¬ (extractDocs ms).isEmpty = true),
    fullPathResponse]
  rfl

theorem query_documents_empty_query (req : QueryRequest) (w : World)
    (hq : pyStrip req.query = "") :
    query_documents req w = .error ⟨400, "Query cannot be empty"⟩ := by
  simp only [query_documents, if_pos hq]

theorem query_documents_embed_error (req : QueryRequest) (w : World)
    (e : HTTPError) (hv : get_embedding w.embed req.query = .error e)
    (hq : ¬ pyStrip req.query = "") :
    query_documents req w = .error e := by
  simp only [query_documents, hv, if_neg hq]

theorem query_documents_vec_error (req : QueryRequest) (w : World)
    (hq : ¬ pyStrip req.query = "") (v : List ℚ)
    (hv : w.embed req.query = .ok v) (e : String)
    (he : w.vecIndex v req.top_k = .error e) :
    query_documents req w = .error ⟨500, "Vector search failed: " ++ e⟩ := by
  simp only [query_documents, get_embedding, hv, he, if_neg hq]

theorem query_documents_gen_error (req : QueryRequest) (w : World)
    (hq : ¬ pyStrip req.query = "") (v : List ℚ)
    (hv : w.embed req.query = .ok v) (ms : List VecMatch)
    (hm : w.vecIndex v req.top_k = .ok ms) (hne : ¬ extractDocs ms = [])
    (e : HTTPError)
    (hgen : generate_answer w.tok w.chat req.query
        (rerank_documents req.query (mmr_diversify (extractDocs ms) 2)
          req.rerank_top_n w.rerankSvc) = .error e) :
    query_documents req w = .error e := by
  simp only [query_documents, get_embedding, hv, hm, hgen, if_neg hq,
    if_neg (by simpa using hne : ¬ (extractDocs ms).isEmpty = true)]

/-! ## Concrete instances used by witnesses and counterexamples -/

/-- A retrieval match carrying a `text` payload. -/
def matchW : VecMatch :=
  { score := 2
    metadata_text := some "Solar panels average 15-22% efficiency."
    metadata := { document_id := some "d1", rest := [] } }

def reqFull : QueryRequest := { query := "What is solar panel efficiency?" }

/-- A world on which the whole pipeline succeeds (with a degraded
rerank). -/
def worldFull : World :=
  { tok := fun _ => some 10
    embed := fun _ => .ok [1]
    vecIndex := fun _ _ => .ok [matchW]
    rerankSvc := fun _ _ _ => .error ()
    chat := fun _ _ =>
      .ok { content := "answer [1]"
            usage := { prompt_tokens := 100, completion_tokens := 50,
                       total_tokens := 150 } }
    tEmbed := 0
    tRetrieval := 0
    tRerank := 0
    tGeneration := 0 }

/-- The `GenResult` the pipeline produces on `worldFull`. -/
def resultFull : GenResult :=
  { answer := "answer [1]"
    tokens := { input := 100, output := 50, total := 150 }
    sources := [{ id := 1
                  preview := "Solar panels average 15-22% efficiency."
                  metadata := { document_id := some "d1", rest := [] }
                  score := 2 }] }

def reqNM : QueryRequest := { query := "anything" }

/-- A world whose vector index returns no matches. -/
def worldNM : World :=
  { tok := fun _ => some 3
    embed := fun _ => .ok [1]
    vecIndex := fun _ _ => .ok []
    rerankSvc := fun _ _ _ => .error ()
    chat := fun _ _ => .error .rateLimited
    tEmbed := 0
    tRetrieval := 0
    tRerank := 0
    tGeneration := 0 }

/-! ## Claim theorems: the query endpoint -/

/-- C5: whenever vector retrieval succeeds but yields zero candidates
carrying a text payload, `query_documents` returns the canned no-match
answer with `sources = []`, zero llm token counts, `total_tokens` equal
to the query-embedding token count alone, zero llm and rerank costs,
total cost equal to the embedding cost, and a timing map holding only
the embedding and retrieval stages — all independently of the (non
empty) query text. -/
theorem no_match_short_circuit (req : QueryRequest) (w : World)
    (hq : ¬ pyStrip req.query = "") (v : List ℚ)
    (hv : w.embed req.query = .ok v) (ms : List VecMatch)
    (hm : w.vecIndex v req.top_k = .ok ms)
    (hempty : extractDocs ms = []) :
    query_documents req w = .ok (noMatchResponse req w) ∧
    (noMatchResponse req w).answer = CANNED_ANSWER ∧
    (noMatchResponse req w).sources = [] ∧
    (noMatchResponse req w).token_estimate.llm_input_tokens = 0 ∧
    (noMatchResponse req w).token_estimate.llm_output_tokens = 0 ∧
    (noMatchResponse req w).token_estimate.total_tokens =
      get_token_count w.tok req.query ∧
    (noMatchResponse req w).token_estimate.costs.lookup "llm_usd" = some 0 ∧
    (noMatchResponse req w).token_estimate.costs.lookup "rerank_usd" = some 0 ∧
    (noMatchResponse req w).token_estimate.costs.lookup "total_usd" =
      (noMatchResponse req w).token_estimate.costs.lookup "embedding_usd" ∧
    (noMatchResponse req w).timing =
      [("embedding", round3 w.tEmbed), ("retrieval", round3 w.tRetrieval)] := by
  refine ⟨query_documents_no_match req w hq v hv ms hm hempty,
    rfl, rfl, rfl, rfl, rfl, ?_, ?_, ?_, rfl⟩
  · simp [noMatchResponse, List.lookup]
  · simp [noMatchResponse, List.lookup]
  · simp [noMatchResponse, List.lookup]

theorem no_match_short_circuit_witness :
    query_documents reqNM worldNM = .ok (noMatchResponse reqNM worldNM) ∧
    (noMatchResponse reqNM worldNM).sources = [] :=
  ⟨(no_match_short_circuit reqNM worldNM (by decide) [1] rfl [] rfl rfl).1,
   (no_match_short_circuit reqNM worldNM (by decide) [1] rfl [] rfl rfl).2.2.1⟩

/-- Projects the `"total"` timing entry out of a query outcome: `some`
when a response was returned, holding `none` when its timing map lacks a
`"total"` key. -/
def timingTotalOf (e : Except HTTPError QueryResponse) : Option (Option ℚ) :=
  match e with
  | .ok r => some (r.timing.lookup "total")
  | .error _ => none

/-- C7 counterexample: on the no-match path the endpoint returns a
response whose timing map has NO `"total"` entry at all —
`timing["total"]` is only written on the full path — refuting the claim
for "every query response". -/
theorem timing_total_missing_on_no_match :
    timingTotalOf (query_documents reqNM worldNM) = some none := by
  rw [query_documents_no_match reqNM worldNM (by decide) [1] rfl [] rfl rfl]
  simp [timingTotalOf, noMatchResponse, List.lookup]

/-- C7 (amended): on the full (answered) path every executed stage
records its elapsed time under its own key, and the `"total"` entry
equals the exact sum of the four recorded stage times (each already
rounded to 3 decimals, so the final `round(sum, 3)` is the sum itself);
on the no-match path the timing map carries only the embedding and
retrieval entries and no `"total"` key. -/
theorem timing_total_is_stage_sum (req : QueryRequest) (w : World)
    (hq : ¬ pyStrip req.query = "") (v : List ℚ)
    (hv : w.embed req.query = .ok v) (ms : List VecMatch)
    (hm : w.vecIndex v req.top_k = .ok ms) (hne : ¬ extractDocs ms = [])
    (result : GenResult)
    (hgen : generate_answer w.tok w.chat req.query
        (rerank_documents req.query (mmr_diversify (extractDocs ms) 2)
          req.rerank_top_n w.rerankSvc) = .ok result)
    (resp : QueryResponse) (h : query_documents req w = .ok resp) :
    resp.timing =
      [("embedding", round3 w.tEmbed), ("retrieval", round3 w.tRetrieval),
       ("reranking", round3 w.tRerank), ("generation", round3 w.tGeneration),
       ("total", round3 w.tEmbed + round3 w.tRetrieval + round3 w.tRerank +
          round3 w.tGeneration)] := by
  rw [query_documents_full_path req w hq v hv ms hm hne result hgen] at h
  have hr : fullPathResponse req w result = resp := by
    simpa using h
  rw [← hr]
  have hsum : round3 (round3 w.tEmbed + (round3 w.tRetrieval +
      (round3 w.tRerank + (round3 w.tGeneration + 0)))) =
      round3 w.tEmbed + round3 w.tRetrieval + round3 w.tRerank +
        round3 w.tGeneration := by
    have harg : round3 w.tEmbed + (round3 w.tRetrieval +
        (round3 w.tRerank + (round3 w.tGeneration + 0))) =
        round3 w.tEmbed + round3 w.tRetrieval + round3 w.tRerank +
          round3 w.tGeneration := by
      ring
    rw [harg]
    apply round3_eq_self_of_thousandth _
      (round (w.tEmbed * 1000) + round (w.tRetrieval * 1000) +
        round (w.tRerank * 1000) + round (w.tGeneration * 1000))
    unfold round3
    push_cast
    ring
  simp only [fullPathResponse, List.map_cons, List.map_nil, List.sum_cons,
    List.sum_nil]
  rw [hsum]

theorem timing_total_is_stage_sum_witness :
    (fullPathResponse reqFull worldFull resultFull).timing =
      [("embedding", round3 0), ("retrieval", round3 0),
       ("reranking", round3 0), ("generation", round3 0),
       ("total", round3 0 + round3 0 + round3 0 + round3 0)] :=
  timing_total_is_stage_sum reqFull worldFull (by decide) [1] rfl [matchW] rfl
    (by simp [extractDocs, matchW]) resultFull rfl
    (fullPathResponse reqFull worldFull resultFull)
    (query_documents_full_path reqFull worldFull (by decide) [1] rfl [matchW]
      rfl (by simp [extractDocs, matchW]) resultFull rfl)

/-- C8: on every successfully answered query, `total_tokens` is the
literal additive formula — the query-embedding token count plus the
generation service's reported total usage — and the embedding, llm
input and llm output token counts are reported separately alongside it
(the llm fields being exactly the usage fields of the chat completion
response). -/
theorem total_tokens_additive (req : QueryRequest) (w : World)
    (hq : ¬ pyStrip req.query = "") (v : List ℚ)
    (hv : w.embed req.query = .ok v) (ms : List VecMatch)
    (hm : w.vecIndex v req.top_k = .ok ms) (hne : ¬ extractDocs ms = [])
    (result : GenResult)
    (hgen : generate_answer w.tok w.chat req.query
        (rerank_documents req.query (mmr_diversify (extractDocs ms) 2)
          req.rerank_top_n w.rerankSvc) = .ok result)
    (resp : QueryResponse) (h : query_documents req w = .ok resp) :
    resp.token_estimate.embedding_tokens = get_token_count w.tok req.query ∧
    resp.token_estimate.llm_input_tokens = result.tokens.input ∧
    resp.token_estimate.llm_output_tokens = result.tokens.output ∧
    resp.token_estimate.total_tokens =
      get_token_count w.tok req.query + result.tokens.total ∧
    ∃ cresp : ChatResp,
      result.tokens.input = cresp.usage.prompt_tokens ∧
      result.tokens.output = cresp.usage.completion_tokens ∧
      result.tokens.total = cresp.usage.total_tokens := by
  rw [query_documents_full_path req w hq v hv ms hm hne result hgen] at h
  have hr : fullPathResponse req w result = resp := by
    simpa using h
  obtain ⟨-, cresp, -, -, hi, ho, ht⟩ :=
    generate_answer_ok_char _ _ _ _ _ hgen
  exact ⟨by rw [← hr]; rfl, by rw [← hr]; rfl, by rw [← hr]; rfl,
    by rw [← hr]; rfl, cresp, hi, ho, ht⟩

theorem total_tokens_additive_witness :
    (fullPathResponse reqFull worldFull resultFull).token_estimate.total_tokens =
      get_token_count worldFull.tok reqFull.query + resultFull.tokens.total :=
  (total_tokens_additive reqFull worldFull (by decide) [1] rfl [matchW] rfl
    (by simp [extractDocs, matchW]) resultFull rfl
    (fullPathResponse reqFull worldFull resultFull)
    (query_documents_full_path reqFull worldFull (by decide) [1] rfl [matchW]
      rfl (by simp [extractDocs, matchW]) resultFull rfl)).2.2.2.1

/-- C9: whenever the endpoint returns a response and the rerank service
honours its contract (on success it returns at most the `top_n` it was
asked for), the returned `sources` list has length at most
`rerank_top_n`: `rerank_documents` returns at most
`min(top_n, len(docs))` candidates on both its paths, and the Context
Budgeter only ever drops candidates. -/
theorem sources_length_le_rerank_top_n (req : QueryRequest) (w : World)
    (hconf : ∀ (q : String) (ts : List String) (n : Nat)
      (rs : List RerankResult), w.rerankSvc q ts n = .ok rs → rs.length ≤ n)
    (resp : QueryResponse) (h : query_documents req w = .ok resp) :
    resp.sources.length ≤ req.rerank_top_n := by
  by_cases hq : pyStrip req.query = ""
  · rw [query_documents_empty_query req w hq] at h
    simp at h
  · cases hemb : w.embed req.query with
    | error e =>
      have he : ∃ e', get_embedding w.embed req.query = .error e' := by
        cases e with
        | rateLimited =>
          exact ⟨⟨429, "OpenAI rate limit exceeded. Please try again later."⟩,
            by simp [get_embedding, hemb]⟩
        | apiError m =>
          exact ⟨⟨503, "OpenAI API error: " ++ m⟩,
            by simp [get_embedding, hemb]⟩
        | otherException m =>
          exact ⟨⟨500, "Embedding generation failed: " ++ m⟩,
            by simp [get_embedding, hemb]⟩
      obtain ⟨e', he'⟩ := he
      rw [query_documents_embed_error req w e' he' hq] at h
      simp at h
    | ok v =>
      cases hvi : w.vecIndex v req.top_k with
      | error e =>
        rw [query_documents_vec_error req w hq v hemb e hvi] at h
        simp at h
      | ok ms =>
        by_cases hde : extractDocs ms = []
        · rw [query_documents_no_match req w hq v hemb ms hvi hde] at h
          have hr : noMatchResponse req w = resp := by simpa using h
          rw [← hr]
          simp [noMatchResponse]
        · cases hgen : generate_answer w.tok w.chat req.query
              (rerank_documents req.query (mmr_diversify (extractDocs ms) 2)
                req.rerank_top_n w.rerankSvc) with
          | error e =>
            rw [query_documents_gen_error req w hq v hemb ms hvi hde e hgen]
              at h
            simp at h
          | ok result =>
            rw [query_documents_full_path req w hq v hemb ms hvi hde result
              hgen] at h
            have hr : fullPathResponse req w result = resp := by simpa using h
            rw [← hr]
            have hsrc := (generate_answer_ok_char _ _ _ _ _ hgen).1
            have h1 := assembleContext_sources_le w.tok
              (rerank_documents req.query (mmr_diversify (extractDocs ms) 2)
                req.rerank_top_n w.rerankSvc) 1 0
            have h2 := rerank_documents_length_le req.query
              (mmr_diversify (extractDocs ms) 2) req.rerank_top_n w.rerankSvc
              hconf
            have hresp : (fullPathResponse req w result).sources =
                result.sources := rfl
            rw [hresp, hsrc]
            omega

theorem sources_length_le_rerank_top_n_witness :
    (fullPathResponse reqFull worldFull resultFull).sources.length ≤
      reqFull.rerank_top_n :=
  sources_length_le_rerank_top_n reqFull worldFull
    (fun q ts n rs hrs => by simp [worldFull] at hrs)
    (fullPathResponse reqFull worldFull resultFull)
    (query_documents_full_path reqFull worldFull (by decide) [1] rfl [matchW]
      rfl (by simp [extractDocs, matchW]) resultFull rfl)
